import Mathlib

/-!
Shallow embedding of the process supervisor in
`packages/desktop/src-tauri/src/opencode_manager.rs` (struct `OpenCodeManager`).

The asynchronous Rust code is sequentialized: each public operation is a pure
function from a supervisor state (plus oracles describing the behaviour of the
external world: the child process, the HTTP endpoints, the emitted output
lines) to a new state and a result.  Machine integers (u16 ports, HTTP status
codes) are `Nat` with explicit range checks where the Rust code has them.
OS-level process liveness is tracked in the state (`procs`), since the claims
quantify over which spawned processes are still alive.
-/

/-- An HTTP reply as observed by the supervisor: a status code, and the body
text (`none` when reading the body failed, mirroring `resp.text().await` being
an `Err`).  A request that failed at the transport level is `Option.none` at
the use sites. -/
structure HttpReply where
  status : Nat
  text : Option String
deriving Repr, DecidableEq

/-- The pair of replies observed in one readiness poll cycle: the reply to the
GET on the configuration endpoint and the reply to the GET on the
agent-listing endpoint (`none` = the request itself errored). -/
structure CycleResult where
  config : Option HttpReply
  agent : Option HttpReply
deriving Repr, DecidableEq

/-- Behaviour of the child process during a graceful stop: whether the
`try_wait` OS call itself fails, whether the process exits within the 3s
SIGTERM wait, and whether it exits within the 2s SIGKILL wait.  Whether the
process has *already* exited is read off the supervisor state (`procs`), not
from this record. -/
structure ProcBehavior where
  tryWaitErr : Bool
  exitsOnTerm : Bool
  exitsOnKill : Bool
deriving Repr, DecidableEq

/-- Observable events of a supervisor run, used to state claims about which
phases executed and which signals were sent. -/
inductive Event where
  | spawned (pid : Nat)
  | sigTerm (pid : Nat)
  | sigKill (pid : Nat)
  | discoveryRun
  | readinessRun
deriving Repr, DecidableEq

/-- Oracles for one `ensure_running` call: whether the entry `try_wait` errors,
whether `Command::spawn` fails, whether the process exits inside the initial
liveness window, the output lines the process emits (ingested in arrival
order), the discovery reply for each candidate API path, and the sequence of
readiness poll cycles that fit before the 20s deadline. -/
structure RunParams where
  entryTryWaitErr : Bool
  spawnFail : Bool
  earlyExit : Bool
  lines : List String
  probe : String → Option HttpReply
  cycles : List CycleResult

/-- The supervisor state: the fields of `OpenCodeManager` that the claims are
about, plus `procs` (every pid this supervisor ever spawned, with its OS-level
liveness), `nextPid` (fresh pid supply) and `log` (events of the run). -/
structure Manager where
  binary : Option String
  desiredPort : Nat
  child : Option Nat
  port : Option Nat
  apiPrefix : String
  isReady : Bool
  shuttingDown : Bool
  procs : List (Nat × Bool)
  nextPid : Nat
  log : List Event
deriving Repr, DecidableEq

/-- A freshly constructed supervisor (`new_with_directory`): no child, no
discovered port, empty prefix, not ready, not shutting down. -/
def newManager (binary : Option String) (desiredPort : Nat) : Manager :=
  ⟨binary, desiredPort, none, none, "", false, false, [], 0, []⟩

/-- Is the given pid a live process spawned by this supervisor? -/
def isLive (procs : List (Nat × Bool)) (pid : Nat) : Bool :=
  procs.any (fun q => q.1 == pid && q.2)

/-- Mark the given pid as exited. -/
def setDead (procs : List (Nat × Bool)) (pid : Nat) : List (Nat × Bool) :=
  procs.map (fun q => if q.1 == pid then (q.1, false) else q)

def isSpawnEvent : Event → Bool
  | .spawned _ => true
  | _ => false

/-- Number of process spawns recorded in the log. -/
def countSpawns (log : List Event) : Nat :=
  (log.filter isSpawnEvent).length

/-! ## The URL regex `https?://[^:\s]+:(?P<port>\d+)(?P<path>/[^\s"']*)?`

The regex engine is specialized to this one pattern.  Because the character
class `[^:\s]+` excludes `:` (the next required character) and `\d+` is
followed only by an optional group starting with `/`, greedy maximal-munch
matching at a position needs no backtracking; the overall leftmost-match rule
is the scan over start positions in `urlMatch`. -/

def hostChar (c : Char) : Bool := !(c == ':') && !c.isWhitespace

def pathChar (c : Char) : Bool :=
  !c.isWhitespace && !(c == Char.ofNat 34) && !(c == Char.ofNat 39)

/-- Match the literal `https?://` at the head of the list. -/
def stripScheme : List Char → Option (List Char)
  | 'h' :: 't' :: 't' :: 'p' :: rest =>
    match rest with
    | 's' :: ':' :: '/' :: '/' :: r => some r
    | ':' :: '/' :: '/' :: r => some r
    | _ => none
  | _ => none

/-- Match the full URL pattern anchored at the head of the list; on success
return the digits of the `port` capture and the `path` capture (if present). -/
def matchAt (cs : List Char) : Option (List Char × Option (List Char)) :=
  match stripScheme cs with
  | none => none
  | some rest =>
    let host := rest.takeWhile hostChar
    let rest1 := rest.dropWhile hostChar
    if host.isEmpty then none else
    match rest1 with
    | ':' :: rest2 =>
      let digits := rest2.takeWhile Char.isDigit
      let rest3 := rest2.dropWhile Char.isDigit
      if digits.isEmpty then none else
      match rest3 with
      | '/' :: rest4 => some (digits, some ('/' :: rest4.takeWhile pathChar))
      | _ => some (digits, none)
    | _ => none

/-- Leftmost match of the URL pattern in a line (`URL_REGEX.captures`). -/
def urlMatch : List Char → Option (List Char × Option (List Char))
  | [] => none
  | c :: cs =>
    match matchAt (c :: cs) with
    | some m => some m
    | none => urlMatch cs

def digitsToNat (ds : List Char) : Nat :=
  ds.foldl (fun acc c => acc * 10 + (c.toNat - 48)) 0

/-- Rust's `str::parse::<u16>` on a nonempty all-digit string: succeeds iff
the value fits in 16 bits. -/
def parseU16 (ds : List Char) : Option Nat :=
  if digitsToNat ds ≤ 65535 then some (digitsToNat ds) else none

/-! ## Output ingestion (`ingest_output_line`) -/

/-- One output line scanned for the URL pattern (`ingest_output_line`): a
match unconditionally tries to store the parsed port (skipped when the digit
capture does not parse as a u16) and stores the path capture as the API
path when it is present, nonempty and not the bare root. -/
def ingestLine (st : Manager) (line : String) : Manager :=
  match urlMatch line.toList with
  | none => st
  | some m =>
    let st1 :=
      match parseU16 m.1 with
      | some v => { st with port := some v }
      | none => st
    match m.2 with
    | some v =>
      if v ≠ [] ∧ v ≠ ['/'] then { st1 with apiPrefix := String.mk v } else st1
    | none => st1

/-- Ingest a sequence of output lines in arrival order. -/
def ingestAll (st : Manager) (lines : List String) : Manager :=
  lines.foldl ingestLine st

/-- The port value a single line would store, if any. -/
def linePortVal (line : String) : Option Nat :=
  match urlMatch line.toList with
  | some m => parseU16 m.1
  | none => none

/-- The API path a single line would store, if any. -/
def linePrefixVal (line : String) : Option String :=
  match urlMatch line.toList with
  | some (_, some v) =>
    if v ≠ [] ∧ v ≠ ['/'] then some (String.mk v) else none
  | _ => none

/-- The last `some` in a list of optional values (used to state
last-match-wins). -/
def lastSome : List (Option α) → Option α
  | [] => none
  | o :: rest =>
    match lastSome rest with
    | some v => some v
    | none => o

/-! ## API path normalization and endpoint discovery -/

def dropTrailingSlashes (cs : List Char) : List Char :=
  (cs.reverse.dropWhile (fun c => c == '/')).reverse

/-- Rust's `str::trim`: strip leading and trailing whitespace (modelled at the
character level so that it is kernel-computable). -/
def trimChars (cs : List Char) : List Char :=
  ((cs.dropWhile Char.isWhitespace).reverse.dropWhile Char.isWhitespace).reverse

/-- `normalize_api_prefix`: trim, map empty and bare "/" to empty, strip
trailing slashes, ensure a leading slash. -/
def normalizeApiPrefix (p : String) : String :=
  match trimChars p.toList with
  | [] => ""
  | ['/'] => ""
  | cs =>
    match dropTrailingSlashes cs with
    | '/' :: n => String.mk ('/' :: n)
    | n => String.mk ('/' :: n)

/-- `reqwest::StatusCode::is_success`: 200..=299. -/
def isSuccess (status : Nat) : Bool := 200 ≤ status && status ≤ 299

/-- Does the body look like JSON: after trimming, starts with an opening
curly brace or an opening square bracket. -/
def jsonShaped (text : String) : Bool :=
  match trimChars text.toList with
  | [] => false
  | c :: _ => c == Char.ofNat 123 || c == '['

/-- Acceptance test of one discovery probe (`detect_api_prefix` inner loop):
the request must have produced a reply, with a success status, a readable
body, and a JSON-shaped body. -/
def acceptProbe (r : Option HttpReply) : Bool :=
  match r with
  | some resp =>
    isSuccess resp.status &&
      (match resp.text with
       | some t => jsonShaped t
       | none => false)
  | none => false

/-- First candidate in the ordered list whose probe is accepted. -/
def firstAccepted (probe : String → Option HttpReply) : List String → Option String
  | [] => none
  | c :: rest => if acceptProbe (probe c) then some c else firstAccepted probe rest

/-- `detect_api_prefix`: fails only when no port is known; otherwise probes the
candidates "" then "/api" against `{base}/config`, stores the normalized first
accepted candidate, and falls back to the empty string when none is
accepted (non-fatal). -/
def detectApiPrefix (st : Manager) (probe : String → Option HttpReply) :
    Manager × Except String Unit :=
  let st := { st with log := st.log ++ [Event.discoveryRun] }
  match st.port with
  | none => (st, .error "Cannot detect API prefix without port")
  | some _ =>
    match firstAccepted probe ["", "/api"] with
    | some c => ({ st with apiPrefix := normalizeApiPrefix c }, .ok ())
    | none => ({ st with apiPrefix := "" }, .ok ())

/-! ## Readiness polling -/

/-- `check_endpoints`: issue both GETs, then require a transport-level reply
and a success status from `/config`, then the same from `/agent`.  The body
is never read here. -/
def checkEndpoints (cy : CycleResult) : Except String Unit :=
  match cy.config with
  | none => .error "request error on /config"
  | some c =>
    if !isSuccess c.status then .error ("/config returned " ++ toString c.status)
    else
      match cy.agent with
      | none => .error "request error on /agent"
      | some a =>
        if !isSuccess a.status then .error ("/agent returned " ++ toString a.status)
        else .ok ()

/-- The poll loop of `wait_for_ready`: succeed at the first cycle in which both
endpoint checks pass; when the cycles before the deadline are exhausted, fail
with the timeout error. -/
def waitForReadyLoop : List CycleResult → Except String Unit
  | [] => .error "OpenCode not ready after 20000ms"
  | cy :: rest =>
    match checkEndpoints cy with
    | .ok () => .ok ()
    | .error _ => waitForReadyLoop rest

/-- `wait_for_ready`: fails outright without a port, otherwise runs the poll
loop. -/
def waitForReady (st : Manager) (cycles : List CycleResult) : Except String Unit :=
  match st.port with
  | none => .error "Cannot check readiness without port"
  | some _ => waitForReadyLoop cycles

/-! ## Spawning and the public operations -/

/-- `wait_for_port_detection`: polls `current_port()` until the deadline; in
the sequential model the lines have already been ingested, so this is a check
that some port is known. -/
def waitForPortDetection (st : Manager) : Except String Unit :=
  if st.port.isSome then .ok ()
  else .error "OpenCode did not report port within 15 seconds"

/-- `spawn_process`: fails when no binary is available or the spawn fails;
otherwise allocates a fresh live pid, pre-sets the port when the configured
port is fixed (> 0), and fails with the early-exit error when the process
dies inside the initial liveness window (the pid is then already dead). -/
def spawnProcess (st : Manager) (p : RunParams) : Manager × Except String Nat :=
  match st.binary with
  | none => (st, .error "Cannot spawn process: OpenCode CLI is not available")
  | some _ =>
    if p.spawnFail then (st, .error "Failed to spawn OpenCode") else
    let pid := st.nextPid
    let st := { st with
      nextPid := pid + 1
      procs := st.procs ++ [(pid, true)]
      log := st.log ++ [Event.spawned pid] }
    let st := if st.desiredPort > 0 then { st with port := some st.desiredPort } else st
    if p.earlyExit then
      ({ st with procs := setDead st.procs pid },
        .error "OpenCode process exited immediately after spawn")
    else (st, .ok pid)

/-- The state as it stands when readiness polling begins: endpoint discovery
has run with its error ignored (`let _ = self.detect_api_prefix()`), and the
poll phase is recorded in the log. -/
def pollStage (st4 : Manager) (p : RunParams) : Manager :=
  { (detectApiPrefix st4 p.probe).1 with
    log := (detectApiPrefix st4 p.probe).1.log ++ [Event.readinessRun] }

/-- The tail of `ensure_running` after the new child handle is stored: ingest
the output lines, wait for port detection when the configured port is
dynamic, run endpoint discovery with its error ignored, poll for readiness,
and on success set readiness. -/
def afterSpawn (st3 : Manager) (p : RunParams) : Manager × Except String Unit :=
  match (if (ingestAll st3 p.lines).desiredPort = 0
         then waitForPortDetection (ingestAll st3 p.lines) else .ok ()) with
  | .error e => (ingestAll st3 p.lines, .error e)
  | .ok () =>
    match waitForReady (pollStage (ingestAll st3 p.lines) p) p.cycles with
    | .error e => (pollStage (ingestAll st3 p.lines) p, .error e)
    | .ok () => ({ pollStage (ingestAll st3 p.lines) p with isReady := true }, .ok ())

/-- The body of `ensure_running` once the early-return check has not fired:
store false into the readiness flag, spawn, store the new handle (without
touching the previously stored process), and run the start sequence. -/
def runStartSequence (st : Manager) (p : RunParams) : Manager × Except String Unit :=
  match spawnProcess { st with isReady := false } p with
  | (st2, .error e) => (st2, .error e)
  | (st2, .ok pid) => afterSpawn { st2 with child := some pid } p

/-- The early-return check of `ensure_running`: with a stored child handle,
`try_wait` (whose failure propagates) decides whether the child is still
running, and the call returns at once exactly when it is and the readiness
flag is set. -/
def entryCheck (st : Manager) (p : RunParams) : Except String Bool :=
  match st.child with
  | some pid =>
    if p.entryTryWaitErr then .error "try_wait failed"
    else .ok (isLive st.procs pid && st.isReady)
  | none => .ok false

/-- `ensure_running`: fail when no binary is available; return at once when
the stored child is live and the supervisor is ready; otherwise run the start
sequence. -/
def ensureRunning (st : Manager) (p : RunParams) : Manager × Except String Unit :=
  match st.binary with
  | none => (st, .error "OpenCode CLI is not available")
  | some _ =>
    match entryCheck st p with
    | .error e => (st, .error e)
    | .ok true => (st, .ok ())
    | .ok false => runStartSequence st p

/-- `graceful_stop`: success at once when no handle is stored; take the
handle; propagate a `try_wait` failure; success at once (no signal) when the
process already exited; otherwise SIGTERM, a 3s wait, and on timeout SIGKILL
and a 2s wait, returning success regardless of the final observed state. -/
def gracefulStop (st : Manager) (beh : ProcBehavior) : Manager × Except String Unit :=
  match st.child with
  | none => (st, .ok ())
  | some pid =>
    if beh.tryWaitErr then ({ st with child := none }, .error "try_wait failed")
    else if !isLive st.procs pid then ({ st with child := none }, .ok ())
    else if beh.exitsOnTerm then
      ({ st with
        child := none
        log := st.log ++ [Event.sigTerm pid]
        procs := setDead st.procs pid }, .ok ())
    else if beh.exitsOnKill then
      ({ st with
        child := none
        log := st.log ++ [Event.sigTerm pid, Event.sigKill pid]
        procs := setDead st.procs pid }, .ok ())
    else
      ({ st with
        child := none
        log := st.log ++ [Event.sigTerm pid, Event.sigKill pid] }, .ok ())

/-- `shutdown`: mark shutting-down and not ready, then graceful stop. -/
def shutdown (st : Manager) (beh : ProcBehavior) : Manager × Except String Unit :=
  gracefulStop { st with shuttingDown := true, isReady := false } beh

/-- The state reset inside `restart`: clear the discovered port only when the
configured port is dynamic (0), clear the discovered API path unconditionally. -/
def resetDiscovery (st : Manager) : Manager :=
  { st with
    port := if st.desiredPort = 0 then none else st.port
    apiPrefix := "" }

/-- `restart`: clear readiness, graceful stop (propagating its only possible
failure), reset the discovery state, then `ensure_running`. -/
def restart (st : Manager) (beh : ProcBehavior) (p : RunParams) :
    Manager × Except String Unit :=
  match gracefulStop { st with isReady := false } beh with
  | (st1, .error e) => (st1, .error e)
  | (st1, .ok ()) => ensureRunning (resetDiscovery st1) p

/-- Strip the four characters of the fixed routing marker "/api" from the head
of a character list. -/
def stripApiChars : List Char → Option (List Char)
  | '/' :: 'a' :: 'p' :: 'i' :: rest => some rest
  | _ => none

/-- `rewrite_path`: byte-literal strip of the fixed "/api" routing marker; an
exact "/api" maps to "/", any other stripped result is returned as-is (even
without a leading slash), and a path not starting with "/api" is unchanged. -/
def rewritePath (incomingPath : String) : String :=
  match stripApiChars incomingPath.toList with
  | some rest => if rest.isEmpty then "/" else String.mk rest
  | none => incomingPath

/-! ## Concrete states and run oracles used in the concrete theorems -/

/-- The port field after one URL match whose digit capture is d: the parsed
value when it fits in 16 bits, otherwise the old value. -/
def portAfterMatch (d : List Char) (old : Option Nat) : Option Nat :=
  match parseU16 d with
  | some v => some v
  | none => old

/-- The apiPrefix field after one URL match whose path capture is pa: the
captured path when present, nonempty and not the bare root, otherwise the old
value. -/
def prefixAfterMatch (pa : Option (List Char)) (old : String) : String :=
  match pa with
  | some v => if v ≠ [] ∧ v ≠ ['/'] then String.mk v else old
  | none => old

/-- Latch an optional new value over an optional old one (last write wins). -/
def latchOpt (o : Option α) (old : Option α) : Option α :=
  match o with
  | some v => some v
  | none => old

/-- Latch an optional new string over an old one (last write wins). -/
def latchStr (o : Option String) (old : String) : String :=
  match o with
  | some v => v
  | none => old

/-- A poll cycle in which both endpoints returned a success status (the body
plays no part). -/
def cycleBothSuccess (cy : CycleResult) : Bool :=
  (match cy.config with
   | some c => isSuccess c.status
   | none => false) &&
  (match cy.agent with
   | some a => isSuccess a.status
   | none => false)

/-- A fixed-port supervisor with the CLI available, as freshly constructed. -/
def mgr4096 : Manager := newManager (some "opencode") 4096

/-- A fixed-port supervisor after a successful run: the port field holds the
configured port. -/
def mgrFixedDiscovered : Manager :=
  { newManager (some "opencode") 4096 with port := some 4096 }

/-- A dynamic-port supervisor whose port has been discovered as 4097. -/
def mgrPort4097 : Manager :=
  { newManager (some "opencode") 0 with port := some 4097 }

/-- Run oracles for a start whose readiness polling never sees a passing
cycle before the deadline. -/
def runNeverReady : RunParams :=
  ⟨false, false, false, [], fun _ => none, []⟩

/-- Run oracles for a start that passes readiness in its first cycle. -/
def runReadyJson : RunParams :=
  ⟨false, false, false, [], fun _ => none,
   [⟨some ⟨200, some "[]"⟩, some ⟨200, some "[]"⟩⟩]⟩

/-- Run oracles whose only poll cycle returns success statuses with non-JSON
(HTML) bodies on both endpoints. -/
def runReadyHtml : RunParams :=
  ⟨false, false, false, [], fun _ => none,
   [⟨some ⟨200, some "<html>"⟩, some ⟨200, some "<html>"⟩⟩]⟩

/-- A discovery environment in which the empty-prefix probe answers with an
HTML page and the "/api" probe answers with a JSON body. -/
def probeHtmlThenJson : String → Option HttpReply :=
  fun c => if c = "/api" then some ⟨200, some "[]"⟩ else some ⟨200, some "<html>"⟩

/-- A dynamic-port supervisor with the CLI available, as freshly constructed. -/
def mgrDyn : Manager := newManager (some "opencode") 0

/-- Run oracles for a process that emits output but never a port-bearing
line. -/
def runNoPortLine : RunParams :=
  ⟨false, false, false, ["server starting"], fun _ => none, []⟩

/-! ## Frame and characterization lemmas -/

theorem ingestLine_eq (st : Manager) (l : String) :
    ingestLine st l = { st with
      port := match linePortVal l with | some v => some v | none => st.port
      apiPrefix := match linePrefixVal l with | some v => v | none => st.apiPrefix } := by
  unfold ingestLine linePortVal linePrefixVal
  cases h : urlMatch l.toList with
  | none => rfl
  | some m =>
    obtain ⟨d, pa⟩ := m
    cases hp : parseU16 d <;> cases pa <;>
      simp only [hp] <;>
      first
      | rfl
      | (rename_i v
         by_cases hv : v ≠ [] ∧ v ≠ ['/']
         · rw [if_pos hv, if_pos hv]
         · rw [if_neg hv, if_neg hv])

theorem ingestAll_cons (st : Manager) (l : String) (ls : List String) :
    ingestAll st (l :: ls) = ingestAll (ingestLine st l) ls := rfl

theorem ingestAll_port (st : Manager) (lines : List String) :
    (ingestAll st lines).port = latchOpt (lastSome (lines.map linePortVal)) st.port := by
  induction lines generalizing st with
  | nil => rfl
  | cons l ls ih =>
    rw [ingestAll_cons, ih, List.map_cons, lastSome]
    cases hls : lastSome (ls.map linePortVal) with
    | some v => rfl
    | none => cases hl : linePortVal l <;> simp [ingestLine_eq, latchOpt, hl]

theorem ingestAll_apiPrefix (st : Manager) (lines : List String) :
    (ingestAll st lines).apiPrefix =
      latchStr (lastSome (lines.map linePrefixVal)) st.apiPrefix := by
  induction lines generalizing st with
  | nil => rfl
  | cons l ls ih =>
    rw [ingestAll_cons, ih, List.map_cons, lastSome]
    cases hls : lastSome (ls.map linePrefixVal) with
    | some v => rfl
    | none => cases hl : linePrefixVal l <;> simp [ingestLine_eq, latchStr, hl]

theorem ingestAll_frame (st : Manager) (lines : List String) :
    (ingestAll st lines).binary = st.binary ∧
    (ingestAll st lines).desiredPort = st.desiredPort ∧
    (ingestAll st lines).child = st.child ∧
    (ingestAll st lines).isReady = st.isReady ∧
    (ingestAll st lines).shuttingDown = st.shuttingDown ∧
    (ingestAll st lines).procs = st.procs ∧
    (ingestAll st lines).nextPid = st.nextPid ∧
    (ingestAll st lines).log = st.log := by
  induction lines generalizing st with
  | nil => exact ⟨rfl, rfl, rfl, rfl, rfl, rfl, rfl, rfl⟩
  | cons l ls ih =>
    rw [ingestAll_cons, ingestLine_eq]
    exact ih _

theorem detectApiPrefix_fst (st : Manager) (probe : String → Option HttpReply) :
    (detectApiPrefix st probe).1 = { st with
      apiPrefix :=
        match st.port with
        | none => st.apiPrefix
        | some _ =>
          match firstAccepted probe ["", "/api"] with
          | some c => normalizeApiPrefix c
          | none => ""
      log := st.log ++ [Event.discoveryRun] } := by
  unfold detectApiPrefix
  cases st.port with
  | none => rfl
  | some _ => cases firstAccepted probe ["", "/api"] <;> rfl

theorem waitForReadyLoop_ok_mem (cycles : List CycleResult)
    (h : waitForReadyLoop cycles = .ok ()) :
    ∃ cy ∈ cycles, checkEndpoints cy = .ok () := by
  induction cycles with
  | nil => simp [waitForReadyLoop] at h
  | cons cy rest ih =>
    rw [waitForReadyLoop] at h
    cases hc : checkEndpoints cy with
    | ok u => exact ⟨cy, List.mem_cons_self cy rest, by cases u; exact hc⟩
    | error e =>
      rw [hc] at h
      obtain ⟨d, hd, hok⟩ := ih h
      exact ⟨d, List.mem_cons_of_mem cy hd, hok⟩

theorem checkEndpoints_ok_iff (cy : CycleResult) :
    checkEndpoints cy = .ok () ↔
      ((∃ c, cy.config = some c ∧ isSuccess c.status = true) ∧
       (∃ a, cy.agent = some a ∧ isSuccess a.status = true)) := by
  unfold checkEndpoints
  cases cy.config with
  | none => simp
  | some c =>
    cases hc : isSuccess c.status <;>
      cases cy.agent with
      | none => simp [hc]
      | some a => cases ha : isSuccess a.status <;> simp [hc, ha]

theorem isLive_append_true (xs : List (Nat × Bool)) (pid : Nat) :
    isLive (xs ++ [(pid, true)]) pid = true := by
  simp [isLive]

theorem spawnProcess_eq (st : Manager) (p : RunParams) (b : String)
    (hb : st.binary = some b) (hs : p.spawnFail = false) (he : p.earlyExit = false) :
    spawnProcess st p =
      ({ st with
        nextPid := st.nextPid + 1
        procs := st.procs ++ [(st.nextPid, true)]
        log := st.log ++ [Event.spawned st.nextPid]
        port := if st.desiredPort > 0 then some st.desiredPort else st.port },
       .ok st.nextPid) := by
  unfold spawnProcess
  rw [hb]
  simp only [hs, he, Bool.false_eq_true, if_false]
  by_cases hd : st.desiredPort > 0
  · rw [if_pos hd, if_pos hd]
  · rw [if_neg hd, if_neg hd]

theorem spawnProcess_noBinary (st : Manager) (p : RunParams) (hb : st.binary = none) :
    spawnProcess st p = (st, .error "Cannot spawn process: OpenCode CLI is not available") := by
  unfold spawnProcess
  rw [hb]

theorem spawnProcess_spawnFail (st : Manager) (p : RunParams) (b : String)
    (hb : st.binary = some b) (hs : p.spawnFail = true) :
    spawnProcess st p = (st, .error "Failed to spawn OpenCode") := by
  unfold spawnProcess
  rw [hb]
  simp only [hs, if_true]

theorem spawnProcess_earlyExit (st : Manager) (p : RunParams) (b : String)
    (hb : st.binary = some b) (hs : p.spawnFail = false) (he : p.earlyExit = true) :
    spawnProcess st p =
      ({ st with
        nextPid := st.nextPid + 1
        procs := setDead (st.procs ++ [(st.nextPid, true)]) st.nextPid
        log := st.log ++ [Event.spawned st.nextPid]
        port := if st.desiredPort > 0 then some st.desiredPort else st.port },
       .error "OpenCode process exited immediately after spawn") := by
  unfold spawnProcess
  rw [hb]
  simp only [hs, he, Bool.false_eq_true, if_false, if_true]
  by_cases hd : st.desiredPort > 0
  · rw [if_pos hd, if_pos hd]
  · rw [if_neg hd, if_neg hd]

theorem runStartSequence_eq (st : Manager) (p : RunParams) (b : String)
    (hb : st.binary = some b) (hs : p.spawnFail = false) (he : p.earlyExit = false) :
    runStartSequence st p =
      afterSpawn { st with
        isReady := false
        nextPid := st.nextPid + 1
        procs := st.procs ++ [(st.nextPid, true)]
        log := st.log ++ [Event.spawned st.nextPid]
        port := if st.desiredPort > 0 then some st.desiredPort else st.port
        child := some st.nextPid } p := by
  unfold runStartSequence
  rw [spawnProcess_eq { st with isReady := false } p b hb hs he]

theorem pollStage_fields (st4 : Manager) (p : RunParams) :
    (pollStage st4 p).child = st4.child ∧
    (pollStage st4 p).procs = st4.procs ∧
    (pollStage st4 p).binary = st4.binary ∧
    (pollStage st4 p).nextPid = st4.nextPid ∧
    (pollStage st4 p).desiredPort = st4.desiredPort ∧
    (pollStage st4 p).isReady = st4.isReady ∧
    (pollStage st4 p).shuttingDown = st4.shuttingDown ∧
    (pollStage st4 p).port = st4.port ∧
    (pollStage st4 p).log = st4.log ++ [Event.discoveryRun, Event.readinessRun] := by
  unfold pollStage
  rw [detectApiPrefix_fst]
  refine ⟨rfl, rfl, rfl, rfl, rfl, rfl, rfl, rfl, ?_⟩
  simp

theorem afterSpawn_ok (st : Manager) (p : RunParams)
    (h : (afterSpawn st p).2 = .ok ()) :
    (afterSpawn st p).1.child = st.child ∧
    (afterSpawn st p).1.procs = st.procs ∧
    (afterSpawn st p).1.binary = st.binary ∧
    (afterSpawn st p).1.nextPid = st.nextPid ∧
    (afterSpawn st p).1.isReady = true ∧
    (afterSpawn st p).1.log = st.log ++ [Event.discoveryRun, Event.readinessRun] ∧
    ∃ cy ∈ p.cycles, checkEndpoints cy = .ok () := by
  unfold afterSpawn at h ⊢
  obtain ⟨hbin, hdes, hch, hrdy, hsd, hpr, hnp, hlg⟩ := ingestAll_frame st p.lines
  obtain ⟨pch, ppr, pbin, pnp, pdes, prdy, psd, pport, plog⟩ :=
    pollStage_fields (ingestAll st p.lines) p
  cases hpc : (if (ingestAll st p.lines).desiredPort = 0
      then waitForPortDetection (ingestAll st p.lines) else Except.ok ()) with
  | error e => rw [hpc] at h; simp at h
  | ok u =>
    cases u
    rw [hpc] at h
    cases hw : waitForReady (pollStage (ingestAll st p.lines) p) p.cycles with
    | error e => rw [hw] at h; simp at h
    | ok u2 =>
      cases u2
      refine ⟨?_, ?_, ?_, ?_, rfl, ?_, ?_⟩
      · show (pollStage (ingestAll st p.lines) p).child = st.child
        rw [pch, hch]
      · show (pollStage (ingestAll st p.lines) p).procs = st.procs
        rw [ppr, hpr]
      · show (pollStage (ingestAll st p.lines) p).binary = st.binary
        rw [pbin, hbin]
      · show (pollStage (ingestAll st p.lines) p).nextPid = st.nextPid
        rw [pnp, hnp]
      · show (pollStage (ingestAll st p.lines) p).log =
          st.log ++ [Event.discoveryRun, Event.readinessRun]
        rw [plog, hlg]
      · unfold waitForReady at hw
        cases hp4 : (pollStage (ingestAll st p.lines) p).port with
        | none => rw [hp4] at hw; simp at hw
        | some q =>
          rw [hp4] at hw
          exact waitForReadyLoop_ok_mem _ hw

theorem afterSpawn_ready (st : Manager) (p : RunParams)
    (h0 : st.isReady = false)
    (h : (afterSpawn st p).1.isReady = true) :
    ∃ cy ∈ p.cycles, checkEndpoints cy = .ok () := by
  unfold afterSpawn at h
  obtain ⟨hbin, hdes, hch, hrdy, hsd, hpr, hnp, hlg⟩ := ingestAll_frame st p.lines
  obtain ⟨pch, ppr, pbin, pnp, pdes, prdy, psd, pport, plog⟩ :=
    pollStage_fields (ingestAll st p.lines) p
  cases hpc : (if (ingestAll st p.lines).desiredPort = 0
      then waitForPortDetection (ingestAll st p.lines) else Except.ok ()) with
  | error e =>
    rw [hpc] at h
    have h2 : (ingestAll st p.lines).isReady = true := h
    rw [hrdy, h0] at h2
    exact absurd h2 (by simp)
  | ok u =>
    cases u
    rw [hpc] at h
    cases hw : waitForReady (pollStage (ingestAll st p.lines) p) p.cycles with
    | error e =>
      rw [hw] at h
      have h2 : (pollStage (ingestAll st p.lines) p).isReady = true := h
      rw [prdy, hrdy, h0] at h2
      exact absurd h2 (by simp)
    | ok u2 =>
      cases u2
      unfold waitForReady at hw
      cases hp4 : (pollStage (ingestAll st p.lines) p).port with
      | none => rw [hp4] at hw; simp at hw
      | some q =>
        rw [hp4] at hw
        exact waitForReadyLoop_ok_mem _ hw

theorem afterSpawn_portTimeout (st : Manager) (p : RunParams)
    (hd : st.desiredPort = 0) (hp : (ingestAll st p.lines).port = none) :
    afterSpawn st p =
      (ingestAll st p.lines, .error "OpenCode did not report port within 15 seconds") := by
  unfold afterSpawn
  obtain ⟨hbin, hdes, hch, hrdy, hsd, hpr, hnp, hlg⟩ := ingestAll_frame st p.lines
  have hcond : (if (ingestAll st p.lines).desiredPort = 0
      then waitForPortDetection (ingestAll st p.lines) else Except.ok ()) =
      Except.error "OpenCode did not report port within 15 seconds" := by
    rw [hdes, if_pos hd]
    unfold waitForPortDetection
    rw [hp]
    rfl
  rw [hcond]

theorem lastSome_none_or_mem (xs : List (Option α)) :
    lastSome xs = none ∨ lastSome xs ∈ xs := by
  induction xs with
  | nil => exact Or.inl rfl
  | cons o rest ih =>
    rw [lastSome]
    cases h : lastSome rest with
    | some v =>
      rw [h] at ih
      rcases ih with h' | h'
      · exact absurd h' (by simp)
      · exact Or.inr (List.mem_cons_of_mem o h')
    | none => exact Or.inr (List.mem_cons_self o rest)

theorem ingestAll_port_fixed (st : Manager) (lines : List String) (v : Nat)
    (hp : st.port = some v)
    (hl : ∀ l ∈ lines, linePortVal l = none ∨ linePortVal l = some v) :
    (ingestAll st lines).port = some v := by
  rw [ingestAll_port]
  cases h : lastSome (lines.map linePortVal) with
  | none => exact hp
  | some w =>
    rcases lastSome_none_or_mem (lines.map linePortVal) with h' | h'
    · rw [h] at h'; exact absurd h' (by simp)
    · rw [h] at h'
      obtain ⟨l, hlmem, hval⟩ := List.mem_map.mp h'
      rcases hl l hlmem with h2 | h2
      · rw [hval] at h2; exact absurd h2 (by simp)
      · rw [hval] at h2; exact h2

theorem afterSpawn_port_fixed (st : Manager) (p : RunParams) (v : Nat)
    (hp : st.port = some v)
    (hl : ∀ l ∈ p.lines, linePortVal l = none ∨ linePortVal l = some v) :
    (afterSpawn st p).1.port = some v := by
  unfold afterSpawn
  have h4 : (ingestAll st p.lines).port = some v := ingestAll_port_fixed st p.lines v hp hl
  obtain ⟨pch, ppr, pbin, pnp, pdes, prdy, psd, pport, plog⟩ :=
    pollStage_fields (ingestAll st p.lines) p
  cases hpc : (if (ingestAll st p.lines).desiredPort = 0
      then waitForPortDetection (ingestAll st p.lines) else Except.ok ()) with
  | error e => exact h4
  | ok u =>
    cases u
    cases hw : waitForReady (pollStage (ingestAll st p.lines) p) p.cycles with
    | error e =>
      show (pollStage (ingestAll st p.lines) p).port = some v
      rw [pport, h4]
    | ok u2 =>
      cases u2
      show (pollStage (ingestAll st p.lines) p).port = some v
      rw [pport, h4]

theorem gracefulStop_noChild (st : Manager) (beh : ProcBehavior) (h : st.child = none) :
    gracefulStop st beh = (st, .ok ()) := by
  unfold gracefulStop
  rw [h]

theorem gracefulStop_exited (st : Manager) (beh : ProcBehavior) (pid : Nat)
    (h : st.child = some pid) (h1 : beh.tryWaitErr = false)
    (h2 : isLive st.procs pid = false) :
    gracefulStop st beh = ({ st with child := none }, .ok ()) := by
  unfold gracefulStop
  rw [h]
  simp [h1, h2]

theorem gracefulStop_ok (st : Manager) (beh : ProcBehavior) (h : beh.tryWaitErr = false) :
    (gracefulStop st beh).2 = .ok () := by
  unfold gracefulStop
  cases hc : st.child with
  | none => rfl
  | some pid =>
    by_cases h2 : isLive st.procs pid = true <;>
      by_cases h3 : beh.exitsOnTerm = true <;>
      by_cases h4 : beh.exitsOnKill = true <;>
      simp [h, h2, h3, h4]

theorem gracefulStop_frame (st : Manager) (beh : ProcBehavior) :
    (gracefulStop st beh).1.port = st.port ∧
    (gracefulStop st beh).1.apiPrefix = st.apiPrefix ∧
    (gracefulStop st beh).1.desiredPort = st.desiredPort ∧
    (gracefulStop st beh).1.binary = st.binary ∧
    (gracefulStop st beh).1.isReady = st.isReady ∧
    (gracefulStop st beh).1.shuttingDown = st.shuttingDown ∧
    (gracefulStop st beh).1.nextPid = st.nextPid ∧
    (gracefulStop st beh).1.child = none := by
  unfold gracefulStop
  cases hc : st.child with
  | none => exact ⟨rfl, rfl, rfl, rfl, rfl, rfl, rfl, hc⟩
  | some pid =>
    by_cases h1 : beh.tryWaitErr = true <;>
      by_cases h2 : isLive st.procs pid = true <;>
      by_cases h3 : beh.exitsOnTerm = true <;>
      by_cases h4 : beh.exitsOnKill = true <;>
      simp [h1, h2, h3, h4]

theorem ensureRunning_noBinary (st : Manager) (p : RunParams) (h : st.binary = none) :
    ensureRunning st p = (st, .error "OpenCode CLI is not available") := by
  unfold ensureRunning
  rw [h]

theorem ensureRunning_noChild (st : Manager) (p : RunParams) (b : String)
    (hb : st.binary = some b) (hc : st.child = none) :
    ensureRunning st p = runStartSequence st p := by
  unfold ensureRunning entryCheck
  rw [hb, hc]

theorem ensureRunning_liveReady (st : Manager) (p : RunParams) (b : String) (pid : Nat)
    (hb : st.binary = some b) (hc : st.child = some pid)
    (hl : isLive st.procs pid = true) (hr : st.isReady = true)
    (hte : p.entryTryWaitErr = false) :
    ensureRunning st p = (st, .ok ()) := by
  unfold ensureRunning entryCheck
  rw [hb, hc]
  simp [hte, hl, hr]

theorem ensureRunning_notReady (st : Manager) (p : RunParams) (b : String) (pid : Nat)
    (hb : st.binary = some b) (hc : st.child = some pid)
    (hr : (isLive st.procs pid && st.isReady) = false)
    (hte : p.entryTryWaitErr = false) :
    ensureRunning st p = runStartSequence st p := by
  unfold ensureRunning entryCheck
  rw [hb, hc]
  simp [hte, hr]

theorem ensureRunning_entryErr (st : Manager) (p : RunParams) (b : String) (pid : Nat)
    (hb : st.binary = some b) (hc : st.child = some pid) (hte : p.entryTryWaitErr = true) :
    ensureRunning st p = (st, .error "try_wait failed") := by
  unfold ensureRunning entryCheck
  rw [hb, hc]
  simp [hte]

theorem runStartSequence_ready (st : Manager) (p : RunParams)
    (h : (runStartSequence st p).1.isReady = true) :
    ∃ cy ∈ p.cycles, checkEndpoints cy = .ok () := by
  cases hb : st.binary with
  | none =>
    unfold runStartSequence at h
    rw [spawnProcess_noBinary { st with isReady := false } p hb] at h
    exact absurd (show (false : Bool) = true from h) (by simp)
  | some b =>
    cases hs : p.spawnFail with
    | true =>
      unfold runStartSequence at h
      rw [spawnProcess_spawnFail { st with isReady := false } p b hb hs] at h
      exact absurd (show (false : Bool) = true from h) (by simp)
    | false =>
      cases he : p.earlyExit with
      | true =>
        unfold runStartSequence at h
        rw [spawnProcess_earlyExit { st with isReady := false } p b hb hs he] at h
        exact absurd (show (false : Bool) = true from h) (by simp)
      | false =>
        rw [runStartSequence_eq st p b hb hs he] at h
        exact afterSpawn_ready _ p rfl h

theorem ensureRunning_ready_cycles (st : Manager) (p : RunParams)
    (hnr : st.isReady = false)
    (h : (ensureRunning st p).1.isReady = true) :
    ∃ cy ∈ p.cycles, checkEndpoints cy = .ok () := by
  cases hb : st.binary with
  | none =>
    rw [ensureRunning_noBinary st p hb] at h
    rw [show ((st, Except.error (ε := String) "OpenCode CLI is not available")).1.isReady =
      st.isReady from rfl, hnr] at h
    exact absurd h (by simp)
  | some b =>
    cases hc : st.child with
    | none =>
      rw [ensureRunning_noChild st p b hb hc] at h
      exact runStartSequence_ready st p h
    | some pid =>
      cases hte : p.entryTryWaitErr with
      | true =>
        rw [ensureRunning_entryErr st p b pid hb hc hte] at h
        rw [show ((st, Except.error (ε := String) "try_wait failed")).1.isReady =
          st.isReady from rfl, hnr] at h
        exact absurd h (by simp)
      | false =>
        rw [ensureRunning_notReady st p b pid hb hc (by rw [hnr, Bool.and_false]) hte] at h
        exact runStartSequence_ready st p h

theorem restart_ready_cycles (st : Manager) (beh : ProcBehavior) (p : RunParams)
    (h : (restart st beh p).1.isReady = true) :
    ∃ cy ∈ p.cycles, checkEndpoints cy = .ok () := by
  unfold restart at h
  rcases hg : gracefulStop { st with isReady := false } beh with ⟨st1, r⟩
  obtain ⟨f1, f2, f3, f4, f5, f6, f7, f8⟩ := gracefulStop_frame { st with isReady := false } beh
  rw [hg] at h f5
  cases r with
  | error e =>
    have h2 : st1.isReady = true := h
    have h3 : st1.isReady = false := f5
    rw [h2] at h3
    exact absurd h3 (by simp)
  | ok u =>
    cases u
    have h2 : (ensureRunning (resetDiscovery st1) p).1.isReady = true := h
    have h3 : st1.isReady = false := f5
    exact ensureRunning_ready_cycles (resetDiscovery st1) p h3 h2

theorem ensureRunning_ok_shape (st : Manager) (p : RunParams)
    (hc : st.child = none)
    (hok : (ensureRunning st p).2 = .ok ()) :
    (ensureRunning st p).1.child = some st.nextPid ∧
    isLive (ensureRunning st p).1.procs st.nextPid = true ∧
    (ensureRunning st p).1.isReady = true ∧
    (ensureRunning st p).1.binary = st.binary ∧
    (ensureRunning st p).1.log =
      st.log ++ [Event.spawned st.nextPid, Event.discoveryRun, Event.readinessRun] := by
  cases hb : st.binary with
  | none => rw [ensureRunning_noBinary st p hb] at hok; simp at hok
  | some b =>
    rw [ensureRunning_noChild st p b hb hc] at hok ⊢
    cases hs : p.spawnFail with
    | true =>
      unfold runStartSequence at hok
      rw [spawnProcess_spawnFail { st with isReady := false } p b hb hs] at hok
      simp at hok
    | false =>
      cases he : p.earlyExit with
      | true =>
        unfold runStartSequence at hok
        rw [spawnProcess_earlyExit { st with isReady := false } p b hb hs he] at hok
        simp at hok
      | false =>
        rw [runStartSequence_eq st p b hb hs he] at hok ⊢
        obtain ⟨ach, apr, abin, anp, ardy, alog, hcy⟩ := afterSpawn_ok _ p hok
        refine ⟨ach, ?_, ardy, ?_, ?_⟩
        · rw [apr]
          exact isLive_append_true st.procs st.nextPid
        · exact abin.trans hb
        · rw [alog]
          simp

theorem ensureRunning_port_fixed (Q : Manager) (p : RunParams) (v : Nat)
    (hc : Q.child = none) (hd : Q.desiredPort = v) (hv : v ≠ 0)
    (hp : Q.port = some v)
    (hl : ∀ l ∈ p.lines, linePortVal l = none ∨ linePortVal l = some v) :
    (ensureRunning Q p).1.port = some v := by
  cases hb : Q.binary with
  | none => rw [ensureRunning_noBinary Q p hb]; exact hp
  | some b =>
    rw [ensureRunning_noChild Q p b hb hc]
    cases hs : p.spawnFail with
    | true =>
      unfold runStartSequence
      rw [spawnProcess_spawnFail { Q with isReady := false } p b hb hs]
      exact hp
    | false =>
      cases he : p.earlyExit with
      | true =>
        unfold runStartSequence
        rw [spawnProcess_earlyExit { Q with isReady := false } p b hb hs he]
        show (if Q.desiredPort > 0 then some Q.desiredPort else Q.port) = some v
        rw [hd, if_pos (Nat.pos_of_ne_zero hv)]
      | false =>
        rw [runStartSequence_eq Q p b hb hs he]
        apply afterSpawn_port_fixed _ p v ?_ hl
        show (if Q.desiredPort > 0 then some Q.desiredPort else Q.port) = some v
        rw [hd, if_pos (Nat.pos_of_ne_zero hv)]

theorem afterSpawn_portTimeout_log (Q : Manager) (p : RunParams)
    (hd : Q.desiredPort = 0) (hp : Q.port = none)
    (hlines : ∀ l ∈ p.lines, linePortVal l = none) :
    (afterSpawn Q p).2 = .error "OpenCode did not report port within 15 seconds" ∧
    (afterSpawn Q p).1.log = Q.log := by
  have hing : (ingestAll Q p.lines).port = none := by
    rw [ingestAll_port]
    cases h : lastSome (p.lines.map linePortVal) with
    | none => exact hp
    | some w =>
      rcases lastSome_none_or_mem (p.lines.map linePortVal) with h' | h'
      · rw [h] at h'; exact absurd h' (by simp)
      · rw [h] at h'
        obtain ⟨l, hlmem, hval⟩ := List.mem_map.mp h'
        rw [hlines l hlmem] at hval
        exact absurd hval (by simp)
  rw [afterSpawn_portTimeout Q p hd hing]
  exact ⟨rfl, (ingestAll_frame Q p.lines).2.2.2.2.2.2.2⟩

theorem cycleBothSuccess_iff (cy : CycleResult) :
    cycleBothSuccess cy = true ↔
      ((∃ c, cy.config = some c ∧ isSuccess c.status = true) ∧
       (∃ a, cy.agent = some a ∧ isSuccess a.status = true)) := by
  unfold cycleBothSuccess
  cases cy.config with
  | none => simp
  | some c =>
    cases cy.agent with
    | none => simp
    | some a => simp

/-! ## The claims -/

/-- C1: the claim states that at most one live child process exists per
supervisor instance, and in particular that when ensure_running replaces the
stored handle, no previously spawned process of this supervisor is still
live.  The code violates this: after a first ensure_running whose readiness
polling times out (the child stays alive, its handle stays stored, readiness
is false), a second ensure_running spawns a fresh process and overwrites the
stored handle without stopping the first process (the child is spawned with
kill_on_drop(false), and no stop runs before the handle is replaced), so both
pid 0 and pid 1 are live at once while the handle points at pid 1. -/
theorem c1_two_live_processes :
    (ensureRunning mgr4096 runNeverReady).2 = .error "OpenCode not ready after 20000ms" ∧
    isLive (ensureRunning mgr4096 runNeverReady).1.procs 0 = true ∧
    (ensureRunning mgr4096 runNeverReady).1.child = some 0 ∧
    (ensureRunning (ensureRunning mgr4096 runNeverReady).1 runReadyJson).2 = .ok () ∧
    isLive (ensureRunning (ensureRunning mgr4096 runNeverReady).1 runReadyJson).1.procs 0 = true ∧
    isLive (ensureRunning (ensureRunning mgr4096 runNeverReady).1 runReadyJson).1.procs 1 = true ∧
    (ensureRunning (ensureRunning mgr4096 runNeverReady).1 runReadyJson).1.child = some 1 ∧
    countSpawns (ensureRunning (ensureRunning mgr4096 runNeverReady).1 runReadyJson).1.log = 2 :=
  ⟨rfl, rfl, rfl, rfl, rfl, rfl, rfl, rfl⟩

/-- C2: shutdown always returns success, for every state of the child process
during termination — still running and exiting on the graceful signal,
ignoring the graceful signal but dying on the kill, unkillable, or already
exited — and when no process handle exists or the handle is observed as
already exited it returns success immediately without sending any signal (the
event log, which records the signals sent, is unchanged).  The hypothesis
rules out a failure of the try_wait OS call itself, which is not a state of
the child process; the claim quantifies over process states, and in all of
them try_wait returns normally. -/
theorem c2_shutdown_always_ok (st : Manager) (beh : ProcBehavior)
    (h : beh.tryWaitErr = false) :
    (shutdown st beh).2 = .ok () ∧
    (st.child = none → (shutdown st beh).1.log = st.log) ∧
    (∀ pid, st.child = some pid → isLive st.procs pid = false →
      (shutdown st beh).1.log = st.log) := by
  unfold shutdown
  refine ⟨gracefulStop_ok _ beh h, ?_, ?_⟩
  · intro hc
    rw [gracefulStop_noChild { st with shuttingDown := true, isReady := false } beh hc]
  · intro pid hc hl
    rw [gracefulStop_exited { st with shuttingDown := true, isReady := false } beh pid hc h hl]

theorem c2_witness :
    (shutdown mgr4096 ⟨false, false, false⟩).2 = .ok () ∧
    (shutdown mgr4096 ⟨false, false, false⟩).1.log = mgr4096.log := by
  have h := c2_shutdown_always_ok mgr4096 ⟨false, false, false⟩ rfl
  exact ⟨h.1, h.2.1 rfl⟩

/-- C4 counterexample: the output line http://127.0.0.1:99999/x matches the
URL pattern, yet discoveredPort is NOT overwritten, because the digit capture
99999 does not parse as a 16-bit integer — while apiPrefix IS overwritten
with "/x" by the very same match.  This refutes the claim that each line
matching the URL pattern unconditionally overwrites discoveredPort with the
parsed port. -/
theorem c4_counterexample :
    (urlMatch ("http://127.0.0.1:99999/x").toList).isSome = true ∧
    linePortVal "http://127.0.0.1:99999/x" = none ∧
    (ingestLine mgrPort4097 "http://127.0.0.1:99999/x").port = some 4097 ∧
    (ingestLine mgrPort4097 "http://127.0.0.1:99999/x").apiPrefix = "/x" :=
  ⟨rfl, rfl, rfl, rfl⟩

/-- C4 amended: for every line matching the URL pattern, discoveredPort is
overwritten with the parsed port exactly when the digit capture parses as a
16-bit integer (otherwise it is left unchanged), and apiPrefix is overwritten
exactly when a path capture is present, nonempty and not the bare root "/";
over a sequence of ingested lines the last stored value wins for both fields;
and in particular after http://127.0.0.1:4097/ then http://127.0.0.1:4098/api
the discovered port is 4098 and the prefix is "/api". -/
theorem c4_amended (st : Manager) (line : String) (d : List Char)
    (pa : Option (List Char)) (lines : List String)
    (h : urlMatch line.toList = some (d, pa)) :
    ((ingestLine st line).port = portAfterMatch d st.port) ∧
    ((ingestLine st line).apiPrefix = prefixAfterMatch pa st.apiPrefix) ∧
    ((ingestAll st lines).port = latchOpt (lastSome (lines.map linePortVal)) st.port) ∧
    ((ingestAll st lines).apiPrefix = latchStr (lastSome (lines.map linePrefixVal)) st.apiPrefix) ∧
    (ingestAll st ["http://127.0.0.1:4097/", "http://127.0.0.1:4098/api"]).port = some 4098 ∧
    (ingestAll st ["http://127.0.0.1:4097/", "http://127.0.0.1:4098/api"]).apiPrefix = "/api" := by
  refine ⟨?_, ?_, ingestAll_port st lines, ingestAll_apiPrefix st lines, rfl, rfl⟩
  · rw [ingestLine_eq]
    show (match linePortVal line with
      | some v => some v
      | none => st.port) = _
    unfold linePortVal portAfterMatch
    rw [h]
  · rw [ingestLine_eq]
    show (match linePrefixVal line with
      | some v => v
      | none => st.apiPrefix) = _
    unfold linePrefixVal prefixAfterMatch
    rw [h]
    cases pa with
    | none => rfl
    | some v =>
      show (match (if v ≠ [] ∧ v ≠ ['/'] then some (String.mk v) else none) with
        | some u => u
        | none => st.apiPrefix) =
        (if v ≠ [] ∧ v ≠ ['/'] then String.mk v else st.apiPrefix)
      by_cases hv : v ≠ [] ∧ v ≠ ['/']
      · rw [if_pos hv, if_pos hv]
      · rw [if_neg hv, if_neg hv]

theorem c4_witness :
    (ingestLine mgrPort4097 "http://127.0.0.1:4098/api").port = some 4098 ∧
    (ingestLine mgrPort4097 "http://127.0.0.1:4098/api").apiPrefix = "/api" := by
  have h := c4_amended mgrPort4097 "http://127.0.0.1:4098/api"
    ['4', '0', '9', '8'] (some ['/', 'a', 'p', 'i']) [] rfl
  exact ⟨h.1.trans rfl, h.2.1.trans rfl⟩

/-- C5 counterexample: a readiness poll cycle in which both endpoints return
a success status but a non-JSON (HTML) body does make is_ready() true — the
readiness check looks only at the status and never reads the body, so the
claim that such a cycle does not make is_ready() true is false on the code. -/
theorem c5_counterexample :
    jsonShaped "<html>" = false ∧
    checkEndpoints ⟨some ⟨200, some "<html>"⟩, some ⟨200, some "<html>"⟩⟩ = .ok () ∧
    (ensureRunning mgr4096 runReadyHtml).2 = .ok () ∧
    (ensureRunning mgr4096 runReadyHtml).1.isReady = true :=
  ⟨rfl, rfl, rfl, rfl⟩

/-- C5 amended: the readiness check passes exactly when both health endpoints
return a reply with a success status; the shape of the body plays no part
(replacing either body by any other leaves the check's outcome unchanged) —
the JSON body-shape validation exists only in endpoint discovery. -/
theorem c5_amended (cy : CycleResult) (s1 s2 : Nat) (t1 t2 t3 t4 : Option String) :
    (checkEndpoints cy = .ok () ↔
      ((∃ c, cy.config = some c ∧ isSuccess c.status = true) ∧
       (∃ a, cy.agent = some a ∧ isSuccess a.status = true))) ∧
    checkEndpoints ⟨some ⟨s1, t1⟩, some ⟨s2, t2⟩⟩ =
      checkEndpoints ⟨some ⟨s1, t3⟩, some ⟨s2, t4⟩⟩ :=
  ⟨checkEndpoints_ok_iff cy, rfl⟩

theorem c5_witness :
    checkEndpoints ⟨some ⟨200, some "<html>"⟩, some ⟨200, some "[]"⟩⟩ =
      checkEndpoints ⟨some ⟨200, some "[]"⟩, some ⟨200, none⟩⟩ :=
  (c5_amended ⟨none, none⟩ 200 200 (some "<html>") (some "[]") (some "[]") none).2

/-- C10: rewrite_path performs a byte-literal, non-segment-aware strip of the
leading "/api": any path whose characters start with '/','a','p','i' has
exactly those four characters removed even when the next character is not
'/' (e.g. "/apikey" becomes "key", with no leading slash), the exact input
"/api" maps to "/", and a path not starting with "/api" is returned
unchanged. -/
theorem c10_rewrite_path (s t : String) (rest : List Char)
    (hs : s.toList = '/' :: 'a' :: 'p' :: 'i' :: rest)
    (ht : stripApiChars t.toList = none) :
    rewritePath s = (if rest = [] then "/" else String.mk rest) ∧
    rewritePath t = t ∧
    rewritePath "/apikey" = "key" ∧
    rewritePath "/api" = "/" ∧
    rewritePath "/api/config" = "/config" ∧
    rewritePath "/foo" = "/foo" := by
  refine ⟨?_, ?_, rfl, rfl, rfl, rfl⟩
  · unfold rewritePath
    rw [hs]
    show (if rest.isEmpty then "/" else String.mk rest) = _
    cases rest with
    | nil => rfl
    | cons c cs => simp
  · unfold rewritePath
    rw [ht]

theorem c10_witness :
    rewritePath "/apikey" = "key" ∧ rewritePath "/xyz" = "/xyz" := by
  have h := c10_rewrite_path "/apikey" "/xyz" ['k', 'e', 'y'] rfl rfl
  exact ⟨h.1.trans rfl, h.2.1⟩

theorem detectApiPrefix_snd (st : Manager) (probe : String → Option HttpReply) :
    (detectApiPrefix st probe).2 =
      (match st.port with
       | none => Except.error "Cannot detect API prefix without port"
       | some _ => Except.ok ()) := by
  unfold detectApiPrefix
  cases st.port with
  | none => rfl
  | some _ => cases firstAccepted probe ["", "/api"] <;> rfl

/-- C3: ensure_running is idempotent once ready: with a live stored child and
the readiness flag set, a call returns success immediately with the state
unchanged (so no spawn happens); consequently, after a successful
ensure_running from a childless state, a second call returns success
immediately with the state unchanged, and the two calls together record
exactly one spawn. -/
theorem c3_ensure_running_idempotent (s t : Manager) (p1 p2 q : RunParams)
    (b : String) (pid : Nat)
    (ht0 : t.binary = some b) (ht1 : t.child = some pid)
    (ht2 : isLive t.procs pid = true) (ht3 : t.isReady = true)
    (ht4 : q.entryTryWaitErr = false)
    (hs0 : s.child = none) (hs1 : (ensureRunning s p1).2 = .ok ())
    (hs2 : p2.entryTryWaitErr = false) :
    ensureRunning t q = (t, .ok ()) ∧
    ensureRunning (ensureRunning s p1).1 p2 = ((ensureRunning s p1).1, .ok ()) ∧
    countSpawns (ensureRunning s p1).1.log = countSpawns s.log + 1 := by
  obtain ⟨sch, sliv, srdy, sbin, slog⟩ := ensureRunning_ok_shape s p1 hs0 hs1
  refine ⟨ensureRunning_liveReady t q b pid ht0 ht1 ht2 ht3 ht4, ?_, ?_⟩
  · cases hbs : s.binary with
    | none => rw [ensureRunning_noBinary s p1 hbs] at hs1; simp at hs1
    | some b2 =>
      exact ensureRunning_liveReady (ensureRunning s p1).1 p2 b2 s.nextPid
        (by rw [sbin, hbs]) sch sliv srdy hs2
  · rw [slog]
    simp [countSpawns, isSpawnEvent, List.filter_append]

theorem c3_witness :
    ensureRunning (ensureRunning mgr4096 runReadyJson).1 runReadyJson =
      ((ensureRunning mgr4096 runReadyJson).1, .ok ()) ∧
    countSpawns (ensureRunning mgr4096 runReadyJson).1.log =
      countSpawns mgr4096.log + 1 := by
  have h := c3_ensure_running_idempotent mgr4096 (ensureRunning mgr4096 runReadyJson).1
    runReadyJson runReadyJson runReadyJson "opencode" 0
    rfl rfl rfl rfl rfl rfl rfl rfl
  exact ⟨h.2.1, h.2.2⟩

/-- C6: after a (re)start, is_ready() stays false until some poll cycle has
both health endpoints succeed within that same cycle: any run of
ensure_running from a not-ready state, and any restart, that ends with
is_ready() true had such a cycle among its poll cycles; a cycle in which the
endpoints do not both succeed fails the endpoint check and the polling loop
continues past it. -/
theorem c6_ready_requires_same_cycle (st u : Manager) (p p2 : RunParams)
    (beh : ProcBehavior) (cy : CycleResult) (rest : List CycleResult)
    (hnr : st.isReady = false)
    (hmix : cycleBothSuccess cy = false) :
    ((ensureRunning st p).1.isReady = true →
      ∃ d ∈ p.cycles, cycleBothSuccess d = true) ∧
    ((restart u beh p2).1.isReady = true →
      ∃ d ∈ p2.cycles, cycleBothSuccess d = true) ∧
    checkEndpoints cy ≠ .ok () ∧
    waitForReadyLoop (cy :: rest) = waitForReadyLoop rest := by
  have hchk : checkEndpoints cy ≠ .ok () := by
    intro hk
    have h2 := (cycleBothSuccess_iff cy).mpr ((checkEndpoints_ok_iff cy).mp hk)
    rw [hmix] at h2
    exact absurd h2 (by simp)
  refine ⟨?_, ?_, hchk, ?_⟩
  · intro h
    obtain ⟨d, hd, hk⟩ := ensureRunning_ready_cycles st p hnr h
    exact ⟨d, hd, (cycleBothSuccess_iff d).mpr ((checkEndpoints_ok_iff d).mp hk)⟩
  · intro h
    obtain ⟨d, hd, hk⟩ := restart_ready_cycles u beh p2 h
    exact ⟨d, hd, (cycleBothSuccess_iff d).mpr ((checkEndpoints_ok_iff d).mp hk)⟩
  · rw [waitForReadyLoop]
    cases hk : checkEndpoints cy with
    | ok v => cases v; exact absurd hk hchk
    | error e => rfl

theorem c6_witness :
    checkEndpoints (⟨some ⟨200, some "[]"⟩, some ⟨500, some "[]"⟩⟩ : CycleResult) ≠ .ok () ∧
    waitForReadyLoop [⟨some ⟨200, some "[]"⟩, some ⟨500, some "[]"⟩⟩] = waitForReadyLoop [] := by
  have h := c6_ready_requires_same_cycle mgr4096 mgr4096 runReadyJson runReadyJson
    ⟨false, true, true⟩ ⟨some ⟨200, some "[]"⟩, some ⟨500, some "[]"⟩⟩ [] rfl rfl
  exact ⟨h.2.2.1, h.2.2.2⟩

/-- C7: with a dynamic configured port (0), no previously known port, and a
run in which no ingested output line yields a port, ensure_running fails with
the port-discovery timeout error, and the only event of the call is the spawn
itself — neither endpoint discovery nor readiness polling is started. -/
theorem c7_port_discovery_timeout (st : Manager) (p : RunParams) (b : String)
    (hb : st.binary = some b) (hc : st.child = none)
    (hd : st.desiredPort = 0) (hp : st.port = none)
    (hsf : p.spawnFail = false) (hee : p.earlyExit = false)
    (hlines : ∀ l ∈ p.lines, linePortVal l = none) :
    (ensureRunning st p).2 = .error "OpenCode did not report port within 15 seconds" ∧
    (ensureRunning st p).1.log = st.log ++ [Event.spawned st.nextPid] := by
  rw [ensureRunning_noChild st p b hb hc, runStartSequence_eq st p b hb hsf hee]
  exact afterSpawn_portTimeout_log _ p hd (by simp [hd, hp]) hlines

theorem c7_witness :
    (ensureRunning mgrDyn runNoPortLine).2 =
      .error "OpenCode did not report port within 15 seconds" ∧
    (ensureRunning mgrDyn runNoPortLine).1.log =
      mgrDyn.log ++ [Event.spawned mgrDyn.nextPid] := by
  exact c7_port_discovery_timeout mgrDyn runNoPortLine "opencode"
    rfl rfl rfl rfl rfl rfl (by decide)

/-- C8: the reset step of restart clears the discovered API prefix
unconditionally and clears the discovered port exactly when the configured
port is dynamic (0), leaving it untouched otherwise; and on a fixed-port
supervisor whose discovered port equals the configured port, the discovered
port after a whole restart — whether the stop fails, the spawn fails, the
process exits early, polling times out or the restart succeeds — is the very
same configured port (the port is never cleared across restarts). -/
theorem c8_restart_port_prefix (s u : Manager) (beh : ProcBehavior) (p : RunParams)
    (hfix : u.desiredPort ≠ 0) (hport : u.port = some u.desiredPort)
    (hl : ∀ l ∈ p.lines, linePortVal l = none ∨ linePortVal l = some u.desiredPort) :
    (resetDiscovery s).apiPrefix = "" ∧
    (resetDiscovery s).port = (if s.desiredPort = 0 then none else s.port) ∧
    (restart u beh p).1.port = some u.desiredPort := by
  refine ⟨rfl, rfl, ?_⟩
  unfold restart
  rcases hg : gracefulStop { u with isReady := false } beh with ⟨st1, r⟩
  obtain ⟨f1, f2, f3, f4, f5, f6, f7, f8⟩ :=
    gracefulStop_frame { u with isReady := false } beh
  rw [hg] at f1 f3 f8
  cases r with
  | error e =>
    show st1.port = some u.desiredPort
    exact (show st1.port = u.port from f1).trans hport
  | ok v =>
    cases v
    show (ensureRunning (resetDiscovery st1) p).1.port = some u.desiredPort
    have g1 : st1.port = u.port := f1
    have g3 : st1.desiredPort = u.desiredPort := f3
    have g8 : st1.child = none := f8
    apply ensureRunning_port_fixed (resetDiscovery st1) p u.desiredPort
    · show st1.child = none
      exact g8
    · show st1.desiredPort = u.desiredPort
      exact g3
    · exact hfix
    · show (if st1.desiredPort = 0 then none else st1.port) = some u.desiredPort
      rw [g3, if_neg hfix, g1, hport]
    · exact hl

theorem c8_witness :
    (resetDiscovery mgrPort4097).port = none ∧
    (resetDiscovery mgrPort4097).apiPrefix = "" ∧
    (restart mgrFixedDiscovered ⟨false, true, true⟩ runReadyJson).1.port = some 4096 := by
  have h := c8_restart_port_prefix mgrPort4097 mgrFixedDiscovered ⟨false, true, true⟩
    runReadyJson (by decide) rfl (by decide)
  exact ⟨h.2.1.trans (by rfl), h.1, h.2.2⟩

/-- C9: endpoint discovery never fails once a port is known (non-fatal, so
readiness polling proceeds); a probe is accepted exactly when it produced a
reply with a success status and a readable body that is JSON-shaped (after
trimming, begins with an opening brace or bracket); the ordered candidates
are the empty prefix first and then "/api", the first accepted one is stored
as apiPrefix, and when neither is accepted apiPrefix is set to empty.  In
particular an accepted empty-prefix probe stores "", a rejected empty-prefix
probe followed by an accepted "/api" probe stores "/api". -/
theorem c9_endpoint_discovery (st : Manager) (probe : String → Option HttpReply)
    (pt : Nat) (r : Option HttpReply) (hp : st.port = some pt) :
    ((detectApiPrefix st probe).2 = .ok ()) ∧
    (acceptProbe r = true ↔
      ∃ c, r = some c ∧ isSuccess c.status = true ∧
        ∃ b, c.text = some b ∧ jsonShaped b = true) ∧
    (acceptProbe (probe "") = true →
      (detectApiPrefix st probe).1.apiPrefix = "") ∧
    (acceptProbe (probe "") = false → acceptProbe (probe "/api") = true →
      (detectApiPrefix st probe).1.apiPrefix = "/api") ∧
    (acceptProbe (probe "") = false → acceptProbe (probe "/api") = false →
      (detectApiPrefix st probe).1.apiPrefix = "") := by
  refine ⟨?_, ?_, ?_, ?_, ?_⟩
  · rw [detectApiPrefix_snd, hp]
  · cases r with
    | none => simp [acceptProbe]
    | some c =>
      obtain ⟨cs, ct⟩ := c
      cases ct with
      | none => simp [acceptProbe]
      | some b => cases hs : isSuccess cs <;> simp [acceptProbe, hs]
  · intro h1
    rw [detectApiPrefix_fst]
    show (match st.port with
      | none => st.apiPrefix
      | some _ =>
        match firstAccepted probe ["", "/api"] with
        | some c => normalizeApiPrefix c
        | none => "") = ""
    rw [hp]
    show (match (if acceptProbe (probe "") then some "" else
      if acceptProbe (probe "/api") then some "/api" else none) with
      | some c => normalizeApiPrefix c
      | none => "") = ""
    rw [if_pos h1]
    rfl
  · intro h1 h2
    rw [detectApiPrefix_fst]
    show (match st.port with
      | none => st.apiPrefix
      | some _ =>
        match firstAccepted probe ["", "/api"] with
        | some c => normalizeApiPrefix c
        | none => "") = "/api"
    rw [hp]
    show (match (if acceptProbe (probe "") then some "" else
      if acceptProbe (probe "/api") then some "/api" else none) with
      | some c => normalizeApiPrefix c
      | none => "") = "/api"
    rw [if_neg (by simp [h1]), if_pos h2]
    rfl
  · intro h1 h2
    rw [detectApiPrefix_fst]
    show (match st.port with
      | none => st.apiPrefix
      | some _ =>
        match firstAccepted probe ["", "/api"] with
        | some c => normalizeApiPrefix c
        | none => "") = ""
    rw [hp]
    show (match (if acceptProbe (probe "") then some "" else
      if acceptProbe (probe "/api") then some "/api" else none) with
      | some c => normalizeApiPrefix c
      | none => "") = ""
    rw [if_neg (by simp [h1]), if_neg (by simp [h2])]

theorem c9_witness :
    (detectApiPrefix mgrPort4097 probeHtmlThenJson).1.apiPrefix = "/api" ∧
    (detectApiPrefix mgrPort4097 probeHtmlThenJson).2 = .ok () := by
  have h := c9_endpoint_discovery mgrPort4097 probeHtmlThenJson 4097
    (some ⟨200, some "[]"⟩) rfl
  exact ⟨h.2.2.2.1 rfl rfl, h.1⟩
